import Mathlib

/-!
Verification of the PocketShield real-time WebSocket service
(cloud-api/app/websocket_service.py) against its specification.

The embedding is a sequential shallow embedding of the WebSocketManager
class.  Python dicts become association lists with unique keys, Python
sets of strings become duplicate-free lists with insertion order, channel
handles become natural numbers, timestamps become integers (seconds), and
the nondeterministic environment (whether a given channel send raises,
whether a websocket close raises, whether a Redis call raises) is an
explicit `Env` record.  Fresh uuid identifiers are modelled by a counter
in the state; the textual uuid payloads of messages (message_id,
report_id) are elided since no observable behaviour depends on them.
Exceptions become an `Except Unit` component of each result, paired with
the state reached at the raise point, mirroring that Python side effects
performed before a raise persist.
-/

/-! ## Python dict and set primitives -/

/-- Lookup in an association list modelling a Python dict (keys unique). -/
def dictGet {κ α : Type} [DecidableEq κ] (l : List (κ × α)) (k : κ) : Option α :=
  match l with
  | [] => none
  | (k', v) :: rest => if k = k' then some v else dictGet rest k

/-- Update or insert in an association list modelling a Python dict:
replace in place when the key is present, append otherwise. -/
def dictSet {κ α : Type} [DecidableEq κ] (l : List (κ × α)) (k : κ) (v : α) : List (κ × α) :=
  match l with
  | [] => [(k, v)]
  | (k', v') :: rest => if k = k' then (k, v) :: rest else (k', v') :: dictSet rest k v

/-- Deletion from an association list modelling a Python dict. -/
def dictRemove {κ α : Type} [DecidableEq κ] (l : List (κ × α)) (k : κ) : List (κ × α) :=
  l.filter (fun p => decide (p.1 ≠ k))

/-- Python set.add on the duplicate-free-list model of a set of strings. -/
def pyInsert (s : List String) (x : String) : List String :=
  if x ∈ s then s else s ++ [x]

/-- Python set(l): deduplicate a list, keeping first occurrences. -/
def pySet (l : List String) : List String :=
  l.foldl pyInsert []

/-- Python s.update(new): union new elements into s. -/
def pyUpdate (s new : List String) : List String :=
  new.foldl pyInsert s

/-- Python s -= remove: set difference. -/
def pyDiff (s remove : List String) : List String :=
  s.filter (fun x => decide (x ∉ remove))

/-! ## Message and alert model (websocket_service.py lines 21-75) -/

/-- AlertSeverity enum. -/
inductive AlertSeverity where
  | low
  | medium
  | high
  | critical
deriving DecidableEq, Repr

/-- AlertType enum. -/
inductive AlertType where
  | new_threat
  | security_update
  | app_vulnerability
  | device_compromise
  | suspicious_activity
  | system_maintenance
deriving DecidableEq, Repr

/-- The .value string of each AlertType member. -/
def AlertType.value : AlertType → String
  | .new_threat => "new_threat"
  | .security_update => "security_update"
  | .app_vulnerability => "app_vulnerability"
  | .device_compromise => "device_compromise"
  | .suspicious_activity => "suspicious_activity"
  | .system_maintenance => "system_maintenance"

/-- The severity_scores dict of _should_receive_alert (lines 417-422).
It is total on the enum, so the Python .get default 0 is unreachable. -/
def severityScore : AlertSeverity → Int
  | .low => 25
  | .medium => 50
  | .high => 75
  | .critical => 95

/-- ThreatAlert dataclass (lines 47-64).  created_at is an opaque string. -/
structure ThreatAlert where
  alertId : String
  alertType : AlertType
  severity : AlertSeverity
  title : String
  description : String
  indicators : List (String × List String)
  affectedRegions : List String
  threatTags : List String
  actionRequired : Bool
  expiresAt : Option String := none
  createdAt : String := ""
deriving DecidableEq, Repr

/-- ConnectionInfo dataclass (lines 66-75).  The websocket handle is an
opaque channel number; timestamps are integer seconds. -/
structure ConnectionInfo where
  deviceId : String
  websocket : Nat
  connectedAt : Int
  lastPing : Int
  subscriptions : List String
  riskThreshold : Int
  geographicRegions : List String
deriving DecidableEq, Repr

/-- The data payload of each outbound WebSocketMessage the service builds.
Opaque uuid payloads (report ids) are elided. -/
inductive MsgData where
  | connectionEstablished (connectionId : Nat) (subscriptions : List String)
  | threatAlert (alert : ThreatAlert) (priority : String)
  | securityUpdate (payload : List (String × String))
  | pong (serverTime : Int)
  | subscriptionUpdated (subscriptions : List String) (riskThreshold : Int)
  | reportAcknowledged
  | systemAnnouncement (text : String)
deriving DecidableEq, Repr

/-- WebSocketMessage envelope (lines 35-45); the uuid message_id is elided,
the ISO timestamp is the integer clock sample. -/
structure Message where
  messageType : String
  timestamp : Int
  deviceId : Option String
  data : MsgData
deriving DecidableEq, Repr

/-! ## Manager state and environment -/

/-- The mutable state of a WebSocketManager: the two registry dicts
(lines 82-83), a fresh-id counter standing for uuid4 generation, the
channels closed so far, and the log of (channel, envelope) sends that
succeeded. -/
structure WSState where
  activeConnections : List (Nat × ConnectionInfo)
  deviceToConnection : List (String × Nat)
  nextId : Nat
  closedChannels : List Nat
  sentLog : List (Nat × Message)
deriving DecidableEq, Repr

/-- The failure environment: which channel sends raise, which websocket
closes raise, and whether each Redis call (setex, delete, lpush) raises. -/
structure Env where
  sendFails : Nat → Bool
  closeFails : Nat → Bool
  setexFails : Bool
  deleteFails : Bool
  lpushFails : Bool

/-- The benign environment: every send, close and Redis call succeeds. -/
def okEnv : Env :=
  { sendFails := fun _ => false
    closeFails := fun _ => false
    setexFails := false
    deleteFails := false
    lpushFails := false }

/-- The manager state at construction (lines 80-89): empty registries. -/
def initState : WSState :=
  { activeConnections := []
    deviceToConnection := []
    nextId := 0
    closedChannels := []
    sentLog := [] }

/-- lookup_by_device of the spec, realised by the two source dicts:
device_to_connection composed with active_connections. -/
def lookup_by_device (st : WSState) (d : String) : Option ConnectionInfo :=
  match dictGet st.deviceToConnection d with
  | some cid => dictGet st.activeConnections cid
  | none => none

/-! ## connect / disconnect (lines 126-211) -/

/-- The ConnectionInfo built by connect (lines 138-146): Python
`subscriptions or default-set` treats both None and the empty set as
falsy; threshold defaults to 50 and regions to IN. -/
def newConnection (deviceId : String) (ws : Nat) (subs : Option (List String)) (now : Int) :
    ConnectionInfo :=
  { deviceId := deviceId
    websocket := ws
    connectedAt := now
    lastPing := now
    subscriptions :=
      match subs with
      | none => ["phishing", "malware", "scam"]
      | some s => if s = [] then ["phishing", "malware", "scam"] else s
    riskThreshold := 50
    geographicRegions := ["IN"] }

/-- The subscriptions list put in the welcome envelope (line 160):
Python `list(subscriptions or [])`, which is the supplied list itself
(empty included) and the empty list when none was supplied. -/
def welcomeSubs (subs : Option (List String)) : List String :=
  match subs with
  | none => []
  | some s => s

/-- disconnect (lines 181-205).  Early return when the id is absent;
close errors are swallowed by the try/except (the channel is recorded
closed only when the close succeeded); both registry entries are removed;
the final Redis delete raises when the store is failing. -/
def disconnect (env : Env) (st : WSState) (connId : Nat) : WSState × Except Unit Unit :=
  match dictGet st.activeConnections connId with
  | none => (st, Except.ok ())
  | some conn =>
    let st :=
      if env.closeFails conn.websocket then st
      else { st with closedChannels := st.closedChannels ++ [conn.websocket] }
    let st := { st with activeConnections := dictRemove st.activeConnections connId }
    let st :=
      match dictGet st.deviceToConnection conn.deviceId with
      | some _ => { st with deviceToConnection := dictRemove st.deviceToConnection conn.deviceId }
      | none => st
    if env.deleteFails then (st, Except.error ()) else (st, Except.ok ())

/-- disconnect_device (lines 207-211). -/
def disconnect_device (env : Env) (st : WSState) (deviceId : String) : WSState × Except Unit Unit :=
  match dictGet st.deviceToConnection deviceId with
  | some cid => disconnect env st cid
  | none => (st, Except.ok ())

/-- The connection_established envelope of connect (lines 152-163): its
data carries the fresh connection id and `list(subscriptions or [])`. -/
def welcomeMessage (deviceId : String) (connId : Nat) (subs : Option (List String))
    (now : Int) : Message :=
  { messageType := "connection_established"
    timestamp := now
    deviceId := some deviceId
    data := MsgData.connectionEstablished connId (welcomeSubs subs) }

/-- connect (lines 126-179).  A fresh id is drawn first; an existing
session for the device is torn down before the new one is stored; the
welcome envelope is sent on the new channel (a send failure raises); the
Redis setex mirror is last and raises when the store is failing. -/
def connect (env : Env) (st : WSState) (ws : Nat) (deviceId : String)
    (subs : Option (List String)) (now : Int) : WSState × Except Unit Nat :=
  let connId := st.nextId
  let st := { st with nextId := st.nextId + 1 }
  let prior :=
    match dictGet st.deviceToConnection deviceId with
    | some _ => disconnect_device env st deviceId
    | none => (st, Except.ok ())
  match prior with
  | (st, Except.error e) => (st, Except.error e)
  | (st, Except.ok _) =>
    let info := newConnection deviceId ws subs now
    let st := { st with
      activeConnections := dictSet st.activeConnections connId info
      deviceToConnection := dictSet st.deviceToConnection deviceId connId }
    if env.sendFails ws then (st, Except.error ()) else
      let st := { st with sentLog := st.sentLog ++ [(ws, welcomeMessage deviceId connId subs now)] }
      if env.setexFails then (st, Except.error ()) else (st, Except.ok connId)

/-! ## Delivery engine (lines 213-287) -/

/-- The eligibility predicate _should_receive_alert (lines 409-432):
subscription tag check, severity score against the risk threshold, and
the region intersection check guarded by both sides being non-empty. -/
def should_receive_alert (conn : ConnectionInfo) (a : ThreatAlert) : Bool :=
  if a.alertType.value ∉ conn.subscriptions then false
  else if severityScore a.severity < conn.riskThreshold then false
  else if a.affectedRegions ≠ [] ∧ conn.geographicRegions ≠ [] ∧
      ∀ r ∈ a.affectedRegions, r ∉ conn.geographicRegions then false
  else true

/-- The priority field of the alert envelope (line 221). -/
def alertPriority (a : ThreatAlert) : String :=
  if a.severity = AlertSeverity.high ∨ a.severity = AlertSeverity.critical then "high"
  else "normal"

/-- The threat_alert envelope before per-recipient stamping (lines 215-223). -/
def threatAlertMessage (now : Int) (a : ThreatAlert) : Message :=
  { messageType := "threat_alert"
    timestamp := now
    deviceId := none
    data := MsgData.threatAlert a (alertPriority a) }

/-- Per-recipient stamping of an envelope: the source mutates
message.device_id before each send (lines 245, 281). -/
def stampMsg (msg : Message) (d : String) : Message :=
  { msg with deviceId := some d }

/-- Resolution of an explicit target_devices list (lines 230-234 and
270-275): each device id is looked up in both dicts, misses are skipped,
and duplicates in the list yield duplicate entries.  The source keeps the
bare ConnectionInfo and recovers the connection id by scanning for the
structurally equal entry on failure; the id is carried alongside here. -/
def resolveTargets (st : WSState) (devices : List String) : List (Nat × ConnectionInfo) :=
  devices.filterMap (fun d =>
    (dictGet st.deviceToConnection d).bind (fun cid =>
      (dictGet st.activeConnections cid).map (fun info => (cid, info))))

/-- The target connections of send_threat_alert (lines 226-239): Python
`if target_devices:` is falsy for both None and the empty list, so only a
non-empty list selects the explicit path; otherwise every live connection
is filtered through the eligibility predicate. -/
def alertTargets (st : WSState) (a : ThreatAlert) (targetDevices : Option (List String)) :
    List (Nat × ConnectionInfo) :=
  match targetDevices with
  | some (d :: ds) => resolveTargets st (d :: ds)
  | _ => st.activeConnections.filter (fun p => should_receive_alert p.2 a)

/-- The send loop of send_threat_alert (lines 242-253): each failure is
logged and the connection id queued for asynchronous disconnect; each
success appends the stamped envelope to the channel log and bumps the
count. -/
def alertSendLoop (env : Env) (msg : Message) :
    List (Nat × ConnectionInfo) → WSState → Nat → List Nat → WSState × Nat × List Nat
  | [], st, n, failed => (st, n, failed)
  | (cid, c) :: rest, st, n, failed =>
    if env.sendFails c.websocket then
      alertSendLoop env msg rest st n (failed ++ [cid])
    else
      alertSendLoop env msg rest
        { st with sentLog := st.sentLog ++ [(c.websocket, stampMsg msg c.deviceId)] }
        (n + 1) failed

/-- send_threat_alert (lines 213-256).  The disconnect tasks created on
failed sends are run after the loop (the loop itself never awaits
between failure and the next send in a way observable here); their own
results are discarded, as a fire-and-forget task.  Returns the count of
successful sends. -/
def send_threat_alert (env : Env) (st : WSState) (now : Int) (a : ThreatAlert)
    (targetDevices : Option (List String)) : WSState × Nat :=
  let msg := threatAlertMessage now a
  let targets := alertTargets st a targetDevices
  match alertSendLoop env msg targets st 0 [] with
  | (st, n, failed) =>
    (failed.foldl (fun s cid => (disconnect env s cid).fst) st, n)

/-- The security_update envelope (lines 260-265). -/
def securityUpdateMessage (now : Int) (payload : List (String × String)) : Message :=
  { messageType := "security_update"
    timestamp := now
    deviceId := none
    data := MsgData.securityUpdate payload }

/-- The target connections of send_security_update (lines 268-277): same
truthiness-guarded resolution, but the broadcast path takes every live
connection with no eligibility filter. -/
def updateTargets (st : WSState) (targetDevices : Option (List String)) :
    List (Nat × ConnectionInfo) :=
  match targetDevices with
  | some (d :: ds) => resolveTargets st (d :: ds)
  | _ => st.activeConnections

/-- The send loop of send_security_update (lines 279-286): a failure is
only logged — no disconnect is scheduled — and the count is bumped on
success. -/
def updateSendLoop (env : Env) (msg : Message) :
    List (Nat × ConnectionInfo) → WSState → Nat → WSState × Nat
  | [], st, n => (st, n)
  | (_, c) :: rest, st, n =>
    if env.sendFails c.websocket then
      updateSendLoop env msg rest st n
    else
      updateSendLoop env msg rest
        { st with sentLog := st.sentLog ++ [(c.websocket, stampMsg msg c.deviceId)] }
        (n + 1)

/-- send_security_update (lines 258-287). -/
def send_security_update (env : Env) (st : WSState) (now : Int)
    (payload : List (String × String)) (targetDevices : Option (List String)) :
    WSState × Nat :=
  updateSendLoop env (securityUpdateMessage now payload) (updateTargets st targetDevices) st 0

/-! ## Inbound client frames (lines 289-343) -/

/-- An inbound client frame, after JSON decoding: the type tag plus the
optional threat_types, risk_threshold and data fields the source reads. -/
inductive ClientMessage where
  | ping
  | subscribe (threatTypes : List String) (riskThreshold : Option Int)
  | unsubscribe (threatTypes : List String)
  | reportThreat
  | unknown (tag : String)
deriving DecidableEq, Repr

/-- Write an updated ConnectionInfo back into the registry: the source
mutates the shared object in place, which updates the dict entry. -/
def setConn (st : WSState) (cid : Nat) (c : ConnectionInfo) : WSState :=
  { st with activeConnections := dictSet st.activeConnections cid c }

/-- handle_client_message (lines 289-343).  Absent connection ids are a
silent no-op; last_ping is refreshed before dispatch; subscribe unions
the supplied types and overwrites the threshold unvalidated when the
field is present, then replies (a reply send failure raises); unsubscribe
set-subtracts with no reply; report_threat swallows every failure of the
enqueue and of its acknowledgement; unknown types are logged only. -/
def handle_client_message (env : Env) (st : WSState) (now : Int) (connId : Nat)
    (m : ClientMessage) : WSState × Except Unit Unit :=
  match dictGet st.activeConnections connId with
  | none => (st, Except.ok ())
  | some conn0 =>
    let conn := { conn0 with lastPing := now }
    match m with
    | .ping =>
      let st := setConn st connId conn
      let msg : Message :=
        { messageType := "pong", timestamp := now, deviceId := some conn.deviceId
          data := MsgData.pong now }
      if env.sendFails conn.websocket then (st, Except.error ()) else
        ({ st with sentLog := st.sentLog ++ [(conn.websocket, msg)] }, Except.ok ())
    | .subscribe threatTypes rt =>
      let conn := { conn with subscriptions := pyUpdate conn.subscriptions (pySet threatTypes) }
      let conn :=
        match rt with
        | some r => { conn with riskThreshold := r }
        | none => conn
      let st := setConn st connId conn
      let msg : Message :=
        { messageType := "subscription_updated", timestamp := now
          deviceId := some conn.deviceId
          data := MsgData.subscriptionUpdated conn.subscriptions conn.riskThreshold }
      if env.sendFails conn.websocket then (st, Except.error ()) else
        ({ st with sentLog := st.sentLog ++ [(conn.websocket, msg)] }, Except.ok ())
    | .unsubscribe threatTypes =>
      let conn := { conn with subscriptions := pyDiff conn.subscriptions (pySet threatTypes) }
      (setConn st connId conn, Except.ok ())
    | .reportThreat =>
      let st := setConn st connId conn
      let msg : Message :=
        { messageType := "report_acknowledged", timestamp := now
          deviceId := some conn.deviceId, data := MsgData.reportAcknowledged }
      if env.lpushFails then (st, Except.ok ())
      else if env.sendFails conn.websocket then (st, Except.ok ())
      else ({ st with sentLog := st.sentLog ++ [(conn.websocket, msg)] }, Except.ok ())
    | .unknown _ => (setConn st connId conn, Except.ok ())

/-! ## Connection statistics (lines 376-399) -/

/-- The stats object returned by get_connection_stats. -/
structure ConnStats where
  total_connections : Nat
  subscription_counts : List (String × Nat)
  stale_connections : Nat
  uptime_seconds : Int
deriving DecidableEq, Repr

/-- get_connection_stats (lines 376-399).  `now` is the clock sample
taken at the start of the call; `later` is the second utcnow() sample
taken inside the returned dict literal, so uptime_seconds is now - later,
the negation of the time the call itself took. -/
def get_connection_stats (st : WSState) (now later : Int) : ConnStats :=
  { total_connections := st.activeConnections.length
    subscription_counts :=
      st.activeConnections.foldl
        (fun acc p =>
          p.2.subscriptions.foldl (fun a s => dictSet a s ((dictGet a s).getD 0 + 1)) acc) []
    stale_connections :=
      (st.activeConnections.filter (fun p => decide (300 < now - p.2.lastPing))).length
    uptime_seconds := now - later }

/-! ## Operation traces over the manager -/

/-- One externally triggered operation against the manager, for stating
whole-trace invariants. -/
inductive Op where
  | register (ws : Nat) (deviceId : String) (subs : Option (List String)) (now : Int)
  | frame (connId : Nat) (m : ClientMessage) (now : Int)
  | unregister (connId : Nat)
  | unregisterDevice (deviceId : String)
  | alert (a : ThreatAlert) (targetDevices : Option (List String)) (now : Int)
  | update (payload : List (String × String)) (targetDevices : Option (List String)) (now : Int)

/-- Run one operation, discarding its return value. -/
def stepOp (env : Env) (st : WSState) : Op → WSState
  | .register ws d subs now => (connect env st ws d subs now).fst
  | .frame cid m now => (handle_client_message env st now cid m).fst
  | .unregister cid => (disconnect env st cid).fst
  | .unregisterDevice d => (disconnect_device env st d).fst
  | .alert a tds now => (send_threat_alert env st now a tds).fst
  | .update payload tds now => (send_security_update env st now payload tds).fst

/-- Run a list of operations in order. -/
def runOps (env : Env) (ops : List Op) (st : WSState) : WSState :=
  ops.foldl (stepOp env) st

/-- The 0-100 range invariant on every live risk_threshold. -/
def ThresholdInv (st : WSState) : Prop :=
  ∀ p ∈ st.activeConnections, 0 ≤ p.2.riskThreshold ∧ p.2.riskThreshold ≤ 100

/-- The operations whose client-supplied risk_threshold stays in range:
only a subscribe frame carries one. -/
def opThresholdOK : Op → Prop
  | .frame _ (.subscribe _ (some r)) _ => 0 ≤ r ∧ r ≤ 100
  | _ => True

/-! ## Register-only traces, for the single-session invariant -/

/-- Fold a sequence of register calls for one device over a state, in the
benign environment, each call bringing a fresh channel and optional
initial subscriptions. -/
def runRegisters (deviceId : String) (calls : List (Nat × Option (List String)))
    (st : WSState) : WSState :=
  calls.foldl (fun s c => (connect okEnv s c.1 deviceId c.2 0).fst) st

/-! ## Concrete sample data for witnesses and counterexamples -/

/-- The environment in which every channel send raises. -/
def allSendsFailEnv : Env :=
  { okEnv with sendFails := fun _ => true }

/-- The environment in which every Redis call raises. -/
def redisDownEnv : Env :=
  { okEnv with setexFails := true, deleteFails := true, lpushFails := true }

/-- The environment in which every websocket close raises. -/
def closeFailEnv : Env :=
  { okEnv with closeFails := fun _ => true }

/-- A live connection for device d1 on channel 5 with the source defaults. -/
def sampleConn : ConnectionInfo :=
  { deviceId := "d1"
    websocket := 5
    connectedAt := 0
    lastPing := 0
    subscriptions := ["phishing", "malware", "scam"]
    riskThreshold := 50
    geographicRegions := ["IN"] }

/-- A registry holding exactly sampleConn under connection id 0. -/
def sampleState : WSState :=
  { activeConnections := [(0, sampleConn)]
    deviceToConnection := [("d1", 0)]
    nextId := 1
    closedChannels := []
    sentLog := [] }

/-- A connection not subscribed to malware, for the round-trip witness. -/
def phishOnlyConn : ConnectionInfo :=
  { sampleConn with subscriptions := ["phishing"] }

/-- A registry holding exactly phishOnlyConn under connection id 0. -/
def phishOnlyState : WSState :=
  { sampleState with activeConnections := [(0, phishOnlyConn)] }

/-- A high-severity new_threat alert affecting region IN. -/
def sampleAlert : ThreatAlert :=
  { alertId := "a1"
    alertType := AlertType.new_threat
    severity := AlertSeverity.high
    title := "t"
    description := "d"
    indicators := []
    affectedRegions := ["IN"]
    threatTags := ["phishing"]
    actionRequired := true }

/-- The channel of the last call in a register sequence whose first call
brought channel w. -/
def lastWs (w : Nat) (calls : List (Nat × Option (List String))) : Nat :=
  match calls with
  | [] => w
  | c :: rest => lastWs c.1 rest

/-- The channels of all but the last call in a register sequence whose
first call brought channel w: the ones the invariant requires closed. -/
def closedBefore (w : Nat) (calls : List (Nat × Option (List String))) : List Nat :=
  match calls with
  | [] => []
  | c :: rest => w :: closedBefore c.1 rest

/-! ## Derived descriptions of a delivery pass -/

/-- The (channel, stamped envelope) entries a delivery pass appends to the
log: one per target whose channel send succeeds, in target order. -/
def deliveredEntries (env : Env) (msg : Message) (targets : List (Nat × ConnectionInfo)) :
    List (Nat × Message) :=
  (targets.filter (fun p => !env.sendFails p.2.websocket)).map
    (fun p => (p.2.websocket, stampMsg msg p.2.deviceId))

/-- The number of targets whose channel send succeeds. -/
def successCount (env : Env) (targets : List (Nat × ConnectionInfo)) : Nat :=
  (targets.filter (fun p => !env.sendFails p.2.websocket)).length

/-- The connection ids of the targets whose channel send fails, in order. -/
def failedIds (env : Env) (targets : List (Nat × ConnectionInfo)) : List Nat :=
  (targets.filter (fun p => env.sendFails p.2.websocket)).map Prod.fst

/-- A state with further entries appended to its send log, the only state
change a loop of successful sends performs. -/
def logAppend (st : WSState) (entries : List (Nat × Message)) : WSState :=
  { st with sentLog := st.sentLog ++ entries }

/-! ## Basic lemmas on the dict and set primitives -/

theorem dictGet_set_self {κ α : Type} [DecidableEq κ] (l : List (κ × α)) (k : κ) (v : α) :
    dictGet (dictSet l k v) k = some v := by
  induction l with
  | nil => simp [dictGet, dictSet]
  | cons p rest ih =>
    obtain ⟨a, b⟩ := p
    by_cases h : k = a <;> simp [dictGet, dictSet, h, ih]

theorem dictGet_set_ne {κ α : Type} [DecidableEq κ] (l : List (κ × α)) (k k' : κ) (v : α)
    (h : k' ≠ k) : dictGet (dictSet l k v) k' = dictGet l k' := by
  induction l with
  | nil => simp [dictGet, dictSet, h]
  | cons p rest ih =>
    obtain ⟨a, b⟩ := p
    by_cases ha : k = a
    · subst ha
      simp [dictGet, dictSet, h]
    · by_cases hb : k' = a <;> simp [dictGet, dictSet, ha, hb, ih]

theorem dictGet_remove_self {κ α : Type} [DecidableEq κ] (l : List (κ × α)) (k : κ) :
    dictGet (dictRemove l k) k = none := by
  induction l with
  | nil => rfl
  | cons p rest ih =>
    obtain ⟨a, b⟩ := p
    by_cases h : a = k
    · simp [dictRemove, List.filter_cons, h] at ih ⊢
      exact ih
    · simp [dictRemove, List.filter_cons, h, dictGet, Ne.symm h] at ih ⊢
      exact ih

theorem dictGet_remove_ne {κ α : Type} [DecidableEq κ] (l : List (κ × α)) (k k' : κ)
    (h : k' ≠ k) : dictGet (dictRemove l k) k' = dictGet l k' := by
  induction l with
  | nil => rfl
  | cons p rest ih =>
    obtain ⟨a, b⟩ := p
    by_cases ha : a = k
    · subst ha
      simp [dictRemove, List.filter_cons, dictGet, h] at ih ⊢
      exact ih
    · by_cases hb : k' = a <;>
        simp [dictRemove, List.filter_cons, ha, dictGet, hb] at ih ⊢
      exact ih

theorem mem_dictSet {κ α : Type} [DecidableEq κ] {l : List (κ × α)} {k : κ} {v : α}
    {p : κ × α} (h : p ∈ dictSet l k v) : p = (k, v) ∨ p ∈ l := by
  induction l with
  | nil => simpa [dictSet] using h
  | cons q rest ih =>
    obtain ⟨a, b⟩ := q
    by_cases ha : k = a
    · simp [dictSet, ha] at h
      rcases h with h | h
      · exact Or.inl (by simp [h, ha])
      · exact Or.inr (List.mem_cons_of_mem _ h)
    · simp [dictSet, ha] at h
      rcases h with h | h
      · exact Or.inr (by simp [h])
      · rcases ih h with h' | h'
        · exact Or.inl h'
        · exact Or.inr (List.mem_cons_of_mem _ h')

theorem mem_dictRemove {κ α : Type} [DecidableEq κ] {l : List (κ × α)} {k : κ}
    {p : κ × α} (h : p ∈ dictRemove l k) : p ∈ l :=
  List.mem_of_mem_filter h

theorem dictRemove_of_get_none {κ α : Type} [DecidableEq κ] {l : List (κ × α)} {k : κ}
    (h : dictGet l k = none) : dictRemove l k = l := by
  induction l with
  | nil => rfl
  | cons p rest ih =>
    obtain ⟨a, b⟩ := p
    by_cases ha : k = a
    · subst ha
      simp [dictGet] at h
    · simp [dictGet, ha] at h
      simp [dictRemove, List.filter_cons, Ne.symm ha] at ih ⊢
      exact ih h

theorem pySet_singleton (x : String) : pySet [x] = [x] := by
  simp [pySet, pyInsert]

theorem pyUpdate_singleton {s : List String} {x : String} (h : x ∉ s) :
    pyUpdate s [x] = s ++ [x] := by
  simp [pyUpdate, pyInsert, h]

theorem pyDiff_append_singleton {s : List String} {x : String} (h : x ∉ s) :
    pyDiff (s ++ [x]) [x] = s := by
  unfold pyDiff
  rw [List.filter_append]
  have h1 : s.filter (fun a => decide (a ∉ [x])) = s := by
    rw [List.filter_eq_self]
    intro a ha
    simp
    intro hax
    exact h (hax ▸ ha)
  have h2 : [x].filter (fun a => decide (a ∉ [x])) = [] := by
    simp
  rw [h1, h2, List.append_nil]


/-! ## Characterization of the delivery loops -/

theorem alertSendLoop_spec (env : Env) (msg : Message)
    (targets : List (Nat × ConnectionInfo)) :
    ∀ (st : WSState) (n : Nat) (failed : List Nat),
    alertSendLoop env msg targets st n failed =
      (logAppend st (deliveredEntries env msg targets),
       n + successCount env targets,
       failed ++ failedIds env targets) := by
  induction targets with
  | nil => intro st n failed; simp [alertSendLoop, deliveredEntries, successCount, failedIds, logAppend]
  | cons p rest ih =>
    intro st n failed
    obtain ⟨cid, c⟩ := p
    by_cases h : env.sendFails c.websocket = true
    · simp [alertSendLoop, h, ih, List.filter_cons, deliveredEntries, successCount, failedIds]
    · simp only [Bool.not_eq_true] at h
      simp [alertSendLoop, h, ih, List.filter_cons, deliveredEntries, successCount, failedIds,
        logAppend, List.append_assoc]
      omega

theorem updateSendLoop_spec (env : Env) (msg : Message)
    (targets : List (Nat × ConnectionInfo)) :
    ∀ (st : WSState) (n : Nat),
    updateSendLoop env msg targets st n =
      (logAppend st (deliveredEntries env msg targets), n + successCount env targets) := by
  induction targets with
  | nil => intro st n; simp [updateSendLoop, deliveredEntries, successCount, logAppend]
  | cons p rest ih =>
    intro st n
    obtain ⟨cid, c⟩ := p
    by_cases h : env.sendFails c.websocket = true
    · simp [updateSendLoop, h, ih, List.filter_cons, deliveredEntries, successCount]
    · simp only [Bool.not_eq_true] at h
      simp [updateSendLoop, h, ih, List.filter_cons, deliveredEntries, successCount,
        logAppend, List.append_assoc]
      omega

theorem send_security_update_eq (env : Env) (st : WSState) (now : Int)
    (payload : List (String × String)) (tds : Option (List String)) :
    send_security_update env st now payload tds =
      (logAppend st (deliveredEntries env (securityUpdateMessage now payload) (updateTargets st tds)),
       successCount env (updateTargets st tds)) := by
  simp [send_security_update, updateSendLoop_spec]

theorem send_threat_alert_eq (env : Env) (st : WSState) (now : Int) (a : ThreatAlert)
    (tds : Option (List String)) :
    send_threat_alert env st now a tds =
      ((failedIds env (alertTargets st a tds)).foldl (fun s cid => (disconnect env s cid).fst)
         (logAppend st (deliveredEntries env (threatAlertMessage now a) (alertTargets st a tds))),
       successCount env (alertTargets st a tds)) := by
  simp [send_threat_alert, alertSendLoop_spec]

/-! ## Characterization of disconnect and connect -/

theorem disconnect_absent (env : Env) (st : WSState) (cid : Nat)
    (h : dictGet st.activeConnections cid = none) :
    disconnect env st cid = (st, Except.ok ()) := by
  simp [disconnect, h]

theorem disconnect_eq_of_get (env : Env) (st : WSState) (cid : Nat) (conn : ConnectionInfo)
    (h : dictGet st.activeConnections cid = some conn) :
    disconnect env st cid =
      ({ st with
          activeConnections := dictRemove st.activeConnections cid
          deviceToConnection := dictRemove st.deviceToConnection conn.deviceId
          closedChannels := st.closedChannels ++
            (if env.closeFails conn.websocket then [] else [conn.websocket]) },
       if env.deleteFails then Except.error () else Except.ok ()) := by
  simp only [disconnect, h]
  cases hdev : dictGet st.deviceToConnection conn.deviceId with
  | none =>
    by_cases hc : env.closeFails conn.websocket <;> by_cases hd : env.deleteFails <;>
      simp [hdev, hc, hd, dictRemove_of_get_none hdev]
  | some cid2 =>
    by_cases hc : env.closeFails conn.websocket <;> by_cases hd : env.deleteFails <;>
      simp [hdev, hc, hd]

theorem connect_fresh (env : Env) (st : WSState) (ws : Nat) (d : String)
    (subs : Option (List String)) (now : Int)
    (hd : dictGet st.deviceToConnection d = none)
    (hs : env.sendFails ws = false) :
    connect env st ws d subs now =
      ({ st with
          nextId := st.nextId + 1
          activeConnections := dictSet st.activeConnections st.nextId (newConnection d ws subs now)
          deviceToConnection := dictSet st.deviceToConnection d st.nextId
          sentLog := st.sentLog ++ [(ws, welcomeMessage d st.nextId subs now)] },
       if env.setexFails then Except.error () else Except.ok st.nextId) := by
  simp only [connect, hd, hs]
  by_cases hx : env.setexFails <;> simp [hx]

theorem connect_replace (st : WSState) (cid : Nat) (info : ConnectionInfo) (w : Nat)
    (s : Option (List String)) (D : String)
    (h1 : st.activeConnections = [(cid, info)])
    (h2 : st.deviceToConnection = [(D, cid)])
    (h3 : info.deviceId = D) :
    connect okEnv st w D s 0 =
      ({ activeConnections := [(st.nextId, newConnection D w s 0)]
         deviceToConnection := [(D, st.nextId)]
         nextId := st.nextId + 1
         closedChannels := st.closedChannels ++ [info.websocket]
         sentLog := st.sentLog ++ [(w, welcomeMessage D st.nextId s 0)] },
       Except.ok st.nextId) := by
  have hg : dictGet st.deviceToConnection D = some cid := by simp [h2, dictGet]
  have hga : dictGet st.activeConnections cid = some info := by simp [h1, dictGet]
  simp [connect, disconnect_device, disconnect, okEnv, hg, hga, h1, h2, h3,
    dictRemove, dictSet, dictGet, List.filter_cons]


/-! ## Register-only trace lemmas for the single-session invariant -/

theorem runRegisters_cons (D : String) (c : Nat × Option (List String))
    (rs : List (Nat × Option (List String))) (st : WSState) :
    runRegisters D (c :: rs) st = runRegisters D rs (connect okEnv st c.1 D c.2 0).fst := rfl

theorem runRegisters_aux (D : String) (rest : List (Nat × Option (List String))) :
    ∀ (st : WSState) (cid : Nat) (info : ConnectionInfo),
      st.activeConnections = [(cid, info)] → info.deviceId = D →
      st.deviceToConnection = [(D, cid)] →
      ∃ cid2 info2,
        (runRegisters D rest st).activeConnections = [(cid2, info2)] ∧
        info2.deviceId = D ∧
        info2.websocket = lastWs info.websocket rest ∧
        (runRegisters D rest st).deviceToConnection = [(D, cid2)] ∧
        (runRegisters D rest st).closedChannels =
          st.closedChannels ++ closedBefore info.websocket rest := by
  induction rest with
  | nil =>
    intro st cid info h1 h2 h3
    exact ⟨cid, info, by simpa [runRegisters] using h1, h2, by simp [lastWs],
      by simpa [runRegisters] using h3, by simp [runRegisters, closedBefore]⟩
  | cons c rs ih =>
    intro st cid info h1 h2 h3
    have hstep := connect_replace st cid info c.1 c.2 D h1 h3 h2
    have hfst : (connect okEnv st c.1 D c.2 0).fst =
        { activeConnections := [(st.nextId, newConnection D c.1 c.2 0)]
          deviceToConnection := [(D, st.nextId)]
          nextId := st.nextId + 1
          closedChannels := st.closedChannels ++ [info.websocket]
          sentLog := st.sentLog ++ [(c.1, welcomeMessage D st.nextId c.2 0)] } := by
      rw [hstep]
    obtain ⟨cid2, info2, a1, a2, a3, a4, a5⟩ :=
      ih (connect okEnv st c.1 D c.2 0).fst st.nextId (newConnection D c.1 c.2 0)
        (by rw [hfst]) (by simp [newConnection]) (by rw [hfst])
    refine ⟨cid2, info2, ?_, a2, ?_, ?_, ?_⟩
    · rw [runRegisters_cons]
      exact a1
    · rw [a3]
      simp [newConnection, lastWs]
    · rw [runRegisters_cons]
      exact a4
    · rw [runRegisters_cons, a5, hfst]
      simp [closedBefore, newConnection, List.append_assoc]

theorem lastWs_eq_getLastD (w : Nat) (calls : List (Nat × Option (List String))) :
    lastWs w calls = (w :: calls.map Prod.fst).getLastD 0 := by
  induction calls generalizing w with
  | nil => simp [lastWs]
  | cons c rs ih =>
    rw [show lastWs w (c :: rs) = lastWs c.1 rs from rfl, ih c.1]
    simp [List.getLastD_cons]

theorem closedBefore_eq_dropLast (w : Nat) (calls : List (Nat × Option (List String))) :
    closedBefore w calls = (w :: calls.map Prod.fst).dropLast := by
  induction calls generalizing w with
  | nil => simp [closedBefore]
  | cons c rs ih =>
    rw [show closedBefore w (c :: rs) = w :: closedBefore c.1 rs from rfl, ih c.1]
    simp [List.dropLast_cons₂]

/-! ## Further helper lemmas -/

theorem dictGet_mem {κ α : Type} [DecidableEq κ] {l : List (κ × α)} {k : κ} {v : α}
    (h : dictGet l k = some v) : (k, v) ∈ l := by
  induction l with
  | nil => simp [dictGet] at h
  | cons p rest ih =>
    obtain ⟨a, b⟩ := p
    by_cases ha : k = a
    · subst ha
      simp [dictGet] at h
      simp [h]
    · simp [dictGet, ha] at h
      exact List.mem_cons_of_mem _ (ih h)

theorem disconnect_fst_sentLog (env : Env) (st : WSState) (cid : Nat) :
    (disconnect env st cid).fst.sentLog = st.sentLog := by
  cases hc : dictGet st.activeConnections cid with
  | none => rw [disconnect_absent env st cid hc]
  | some conn => rw [disconnect_eq_of_get env st cid conn hc]

theorem foldl_disconnect_sentLog (env : Env) (ids : List Nat) :
    ∀ st : WSState,
      (ids.foldl (fun s cid => (disconnect env s cid).fst) st).sentLog = st.sentLog := by
  induction ids with
  | nil => intro st; rfl
  | cons i rest ih =>
    intro st
    rw [List.foldl_cons, ih, disconnect_fst_sentLog]

theorem thresholdInv_setConn {st : WSState} {cid : Nat} {conn : ConnectionInfo}
    (h : ThresholdInv st) (hc : 0 ≤ conn.riskThreshold ∧ conn.riskThreshold ≤ 100) :
    ThresholdInv (setConn st cid conn) := by
  unfold ThresholdInv at h ⊢
  intro p hp
  rcases mem_dictSet hp with hp' | hp'
  · rw [hp']
    exact hc
  · exact h p hp'

theorem thresholdInv_disconnect (env : Env) (st : WSState) (cid : Nat)
    (h : ThresholdInv st) : ThresholdInv (disconnect env st cid).fst := by
  cases hc : dictGet st.activeConnections cid with
  | none => rw [disconnect_absent env st cid hc]; exact h
  | some conn =>
    rw [disconnect_eq_of_get env st cid conn hc]
    intro p hp
    exact h p (mem_dictRemove hp)

theorem thresholdInv_disconnect_device (env : Env) (st : WSState) (d : String)
    (h : ThresholdInv st) : ThresholdInv (disconnect_device env st d).fst := by
  unfold disconnect_device
  cases hg : dictGet st.deviceToConnection d with
  | none => exact h
  | some cid => exact thresholdInv_disconnect env st cid h

theorem thresholdInv_foldl_disconnect (env : Env) (ids : List Nat) :
    ∀ st : WSState, ThresholdInv st →
      ThresholdInv (ids.foldl (fun s cid => (disconnect env s cid).fst) st) := by
  induction ids with
  | nil => intro st h; exact h
  | cons i rest ih =>
    intro st h
    exact ih _ (thresholdInv_disconnect env st i h)

theorem thresholdInv_logAppend {st : WSState} (entries : List (Nat × Message))
    (h : ThresholdInv st) : ThresholdInv (logAppend st entries) := h

theorem thresholdInv_connect (env : Env) (st : WSState) (ws : Nat) (d : String)
    (subs : Option (List String)) (now : Int) (h : ThresholdInv st) :
    ThresholdInv (connect env st ws d subs now).fst := by
  have hnew : 0 ≤ (newConnection d ws subs now).riskThreshold ∧
      (newConnection d ws subs now).riskThreshold ≤ 100 := by
    simp [newConnection]
  have hstore : ∀ st2 : WSState, ThresholdInv st2 →
      ThresholdInv { st2 with
        activeConnections := dictSet st2.activeConnections st.nextId
          (newConnection d ws subs now)
        deviceToConnection := dictSet st2.deviceToConnection d st.nextId } := by
    intro st2 h2 p hp
    rcases mem_dictSet hp with hp' | hp'
    · rw [hp']
      exact hnew
    · exact h2 p hp'
  unfold connect
  cases hg : dictGet st.deviceToConnection d with
  | none =>
    by_cases hs : env.sendFails ws
    · simp only [hg, hs]
      exact hstore _ h
    · by_cases hx : env.setexFails <;> simp only [hg, hs, hx, Bool.false_eq_true,
        if_false, if_true] <;> exact hstore _ h
  | some cid0 =>
    simp only [hg]
    rcases hprior : disconnect_device env { st with nextId := st.nextId + 1 } d with ⟨st2, r⟩
    have h2 : ThresholdInv st2 := by
      have := thresholdInv_disconnect_device env { st with nextId := st.nextId + 1 } d h
      rw [hprior] at this
      exact this
    cases r with
    | error e => simp only [hprior]; exact h2
    | ok u =>
      by_cases hs : env.sendFails ws
      · simp only [hprior, hs]
        exact hstore _ h2
      · by_cases hx : env.setexFails <;> simp only [hprior, hs, hx, Bool.false_eq_true,
          if_false, if_true] <;> exact hstore _ h2

theorem handle_absent (env : Env) (st : WSState) (now : Int) (cid : Nat) (m : ClientMessage)
    (hg : dictGet st.activeConnections cid = none) :
    handle_client_message env st now cid m = (st, Except.ok ()) := by
  simp [handle_client_message, hg]

theorem handle_ping_active (env : Env) (st : WSState) (now : Int) (cid : Nat)
    (conn0 : ConnectionInfo) (hg : dictGet st.activeConnections cid = some conn0) :
    (handle_client_message env st now cid ClientMessage.ping).fst.activeConnections =
      dictSet st.activeConnections cid { conn0 with lastPing := now } := by
  by_cases hs : env.sendFails conn0.websocket = true <;>
    simp [handle_client_message, hg, hs, setConn]

theorem handle_subscribe_some_active (env : Env) (st : WSState) (now : Int) (cid : Nat)
    (ts : List String) (r : Int) (conn0 : ConnectionInfo)
    (hg : dictGet st.activeConnections cid = some conn0) :
    (handle_client_message env st now cid (ClientMessage.subscribe ts (some r))).fst.activeConnections =
      dictSet st.activeConnections cid
        { conn0 with
            lastPing := now
            subscriptions := pyUpdate conn0.subscriptions (pySet ts)
            riskThreshold := r } := by
  by_cases hs : env.sendFails conn0.websocket = true <;>
    simp [handle_client_message, hg, hs, setConn]

theorem handle_subscribe_none_active (env : Env) (st : WSState) (now : Int) (cid : Nat)
    (ts : List String) (conn0 : ConnectionInfo)
    (hg : dictGet st.activeConnections cid = some conn0) :
    (handle_client_message env st now cid (ClientMessage.subscribe ts none)).fst.activeConnections =
      dictSet st.activeConnections cid
        { conn0 with
            lastPing := now
            subscriptions := pyUpdate conn0.subscriptions (pySet ts) } := by
  by_cases hs : env.sendFails conn0.websocket = true <;>
    simp [handle_client_message, hg, hs, setConn]

theorem handle_unsubscribe_eq (env : Env) (st : WSState) (now : Int) (cid : Nat)
    (ts : List String) (conn0 : ConnectionInfo)
    (hg : dictGet st.activeConnections cid = some conn0) :
    handle_client_message env st now cid (ClientMessage.unsubscribe ts) =
      (setConn st cid
        { conn0 with
            lastPing := now
            subscriptions := pyDiff conn0.subscriptions (pySet ts) },
       Except.ok ()) := by
  simp [handle_client_message, hg]

theorem handle_report_active (env : Env) (st : WSState) (now : Int) (cid : Nat)
    (conn0 : ConnectionInfo) (hg : dictGet st.activeConnections cid = some conn0) :
    (handle_client_message env st now cid ClientMessage.reportThreat).fst.activeConnections =
      dictSet st.activeConnections cid { conn0 with lastPing := now } := by
  by_cases hl : env.lpushFails = true <;> by_cases hs : env.sendFails conn0.websocket = true <;>
    simp [handle_client_message, hg, hl, hs, setConn]

theorem handle_unknown_eq (env : Env) (st : WSState) (now : Int) (cid : Nat) (t : String)
    (conn0 : ConnectionInfo) (hg : dictGet st.activeConnections cid = some conn0) :
    handle_client_message env st now cid (ClientMessage.unknown t) =
      (setConn st cid { conn0 with lastPing := now }, Except.ok ()) := by
  simp [handle_client_message, hg]

theorem thresholdInv_of_active_dictSet (st st2 : WSState) (cid : Nat) (conn : ConnectionInfo)
    (h : ThresholdInv st)
    (hc : 0 ≤ conn.riskThreshold ∧ conn.riskThreshold ≤ 100)
    (ha : st2.activeConnections = dictSet st.activeConnections cid conn) :
    ThresholdInv st2 := by
  intro p hp
  rw [ha] at hp
  rcases mem_dictSet hp with hp' | hp'
  · rw [hp']
    exact hc
  · exact h p hp'

theorem thresholdInv_handle (env : Env) (st : WSState) (now : Int) (cid : Nat)
    (m : ClientMessage) (h : ThresholdInv st)
    (hm : ∀ ts r, m = ClientMessage.subscribe ts (some r) → 0 ≤ r ∧ r ≤ 100) :
    ThresholdInv (handle_client_message env st now cid m).fst := by
  cases hg : dictGet st.activeConnections cid with
  | none => rw [handle_absent env st now cid m hg]; exact h
  | some conn0 =>
    have hc0 : 0 ≤ conn0.riskThreshold ∧ conn0.riskThreshold ≤ 100 :=
      h (cid, conn0) (dictGet_mem hg)
    cases m with
    | ping =>
      exact thresholdInv_of_active_dictSet st _ cid { conn0 with lastPing := now } h hc0
        (handle_ping_active env st now cid conn0 hg)
    | subscribe ts rt =>
      cases rt with
      | none =>
        exact thresholdInv_of_active_dictSet st _ cid
          { conn0 with lastPing := now, subscriptions := pyUpdate conn0.subscriptions (pySet ts) }
          h hc0 (handle_subscribe_none_active env st now cid ts conn0 hg)
      | some r =>
        exact thresholdInv_of_active_dictSet st _ cid
          { conn0 with lastPing := now, subscriptions := pyUpdate conn0.subscriptions (pySet ts),
                       riskThreshold := r }
          h (hm ts r rfl) (handle_subscribe_some_active env st now cid ts r conn0 hg)
    | unsubscribe ts =>
      rw [handle_unsubscribe_eq env st now cid ts conn0 hg]
      exact thresholdInv_of_active_dictSet st _ cid
        { conn0 with lastPing := now, subscriptions := pyDiff conn0.subscriptions (pySet ts) }
        h hc0 rfl
    | reportThreat =>
      exact thresholdInv_of_active_dictSet st _ cid { conn0 with lastPing := now } h hc0
        (handle_report_active env st now cid conn0 hg)
    | unknown t =>
      rw [handle_unknown_eq env st now cid t conn0 hg]
      exact thresholdInv_of_active_dictSet st _ cid { conn0 with lastPing := now } h hc0 rfl

theorem thresholdInv_step (env : Env) (st : WSState) (op : Op) (h : ThresholdInv st)
    (hop : opThresholdOK op) : ThresholdInv (stepOp env st op) := by
  cases op with
  | register ws d subs now => exact thresholdInv_connect env st ws d subs now h
  | frame cid m now =>
    apply thresholdInv_handle env st now cid m h
    intro ts r hmr
    subst hmr
    exact hop
  | unregister cid => exact thresholdInv_disconnect env st cid h
  | unregisterDevice d => exact thresholdInv_disconnect_device env st d h
  | alert a tds now =>
    show ThresholdInv (send_threat_alert env st now a tds).fst
    rw [send_threat_alert_eq]
    exact thresholdInv_foldl_disconnect env _ _ (thresholdInv_logAppend _ h)
  | update payload tds now =>
    show ThresholdInv (send_security_update env st now payload tds).fst
    rw [send_security_update_eq]
    exact thresholdInv_logAppend _ h

/-! ## Claim theorems -/

/-- C1: single-session-per-device invariant.  Starting from the empty
registry, after any non-empty sequence of register calls for device D
(in the benign environment), exactly one live Session exists in the
registry, lookup_by_device D resolves to the Session created by the last
call (its channel is the last channel supplied), and the channels of all
earlier calls have been closed and their Sessions removed from both
registry dicts — each torn down by connect before its successor was
stored. -/
theorem C1_single_session (D : String) (c : Nat × Option (List String))
    (rest : List (Nat × Option (List String))) :
    ∃ cid info,
      (runRegisters D (c :: rest) initState).activeConnections = [(cid, info)] ∧
      lookup_by_device (runRegisters D (c :: rest) initState) D = some info ∧
      info.deviceId = D ∧
      info.websocket = ((c :: rest).map Prod.fst).getLastD 0 ∧
      (runRegisters D (c :: rest) initState).closedChannels =
        ((c :: rest).map Prod.fst).dropLast := by
  have h0 : dictGet initState.deviceToConnection D = none := rfl
  have hc := connect_fresh okEnv initState c.1 D c.2 0 h0 rfl
  have hfst : (connect okEnv initState c.1 D c.2 0).fst =
      { activeConnections := [(0, newConnection D c.1 c.2 0)]
        deviceToConnection := [(D, 0)]
        nextId := 1
        closedChannels := []
        sentLog := [(c.1, welcomeMessage D 0 c.2 0)] } := by
    rw [hc]
    rfl
  obtain ⟨cid2, info2, a1, a2, a3, a4, a5⟩ :=
    runRegisters_aux D rest (connect okEnv initState c.1 D c.2 0).fst 0
      (newConnection D c.1 c.2 0) (by rw [hfst]) (by simp [newConnection]) (by rw [hfst])
  rw [runRegisters_cons]
  refine ⟨cid2, info2, a1, ?_, a2, ?_, ?_⟩
  · simp [lookup_by_device, a4, a1, dictGet]
  · rw [a3]
    simp [newConnection, lastWs_eq_getLastD, List.map_cons]
  · rw [a5, hfst]
    simp [newConnection, closedBefore_eq_dropLast, List.map_cons]

/-- C2: eligibility predicate correctness.  The source predicate holds of
a Session and alert exactly when the alert type tag is subscribed, the
severity score reaches the risk threshold, and the region check passes
(either side empty, or a common region); and a submit_alert with no
target_devices, in the benign environment, appends to the send log
exactly one stamped threat_alert envelope per live Session satisfying the
predicate, returning their number. -/
theorem C2_eligibility (conn : ConnectionInfo) (a : ThreatAlert) (st : WSState) (now : Int) :
    (should_receive_alert conn a = true ↔
      (a.alertType.value ∈ conn.subscriptions ∧
        conn.riskThreshold ≤ severityScore a.severity ∧
        (a.affectedRegions = [] ∨ conn.geographicRegions = [] ∨
          ∃ r ∈ a.affectedRegions, r ∈ conn.geographicRegions))) ∧
    (send_threat_alert okEnv st now a none).fst.sentLog =
      st.sentLog ++ (st.activeConnections.filter (fun p => should_receive_alert p.2 a)).map
        (fun p => (p.2.websocket, stampMsg (threatAlertMessage now a) p.2.deviceId)) ∧
    (send_threat_alert okEnv st now a none).snd =
      (st.activeConnections.filter (fun p => should_receive_alert p.2 a)).length := by
  refine ⟨?_, ?_, ?_⟩
  · unfold should_receive_alert
    by_cases h1 : a.alertType.value ∈ conn.subscriptions
    · rw [if_neg (not_not_intro h1)]
      by_cases h2 : severityScore a.severity < conn.riskThreshold
      · rw [if_pos h2]
        simp only [Bool.false_eq_true, false_iff]
        rintro ⟨-, hle, -⟩
        omega
      · rw [if_neg h2]
        by_cases h3 : a.affectedRegions ≠ [] ∧ conn.geographicRegions ≠ [] ∧
            ∀ r ∈ a.affectedRegions, r ∉ conn.geographicRegions
        · rw [if_pos h3]
          simp only [Bool.false_eq_true, false_iff]
          rintro ⟨-, -, hreg⟩
          obtain ⟨hA, hB, hall⟩ := h3
          rcases hreg with he | he | ⟨r, hr1, hr2⟩
          · exact hA he
          · exact hB he
          · exact hall r hr1 hr2
        · rw [if_neg h3]
          simp only [eq_self_iff_true, true_iff]
          push_neg at h3
          refine ⟨h1, by omega, ?_⟩
          by_cases hA : a.affectedRegions = []
          · exact Or.inl hA
          · by_cases hB : conn.geographicRegions = []
            · exact Or.inr (Or.inl hB)
            · obtain ⟨r, hr1, hr2⟩ := h3 hA hB
              exact Or.inr (Or.inr ⟨r, hr1, hr2⟩)
    · rw [if_pos h1]
      simp only [Bool.false_eq_true, false_iff]
      intro hcontra
      exact h1 hcontra.1
  · rw [send_threat_alert_eq, foldl_disconnect_sentLog]
    simp [logAppend, deliveredEntries, alertTargets, okEnv]
  · rw [send_threat_alert_eq]
    simp [successCount, alertTargets, okEnv]

/-- C3 counterexample: a submit_update delivery to a single live Session
whose channel send fails leaves the whole manager state unchanged — the
failed Session is still registered (still found under its id), no channel
is closed, and the call returns 0 — refuting the claim that the failed
Session is scheduled for teardown and does not remain registered. -/
theorem C3_counterexample :
    send_security_update allSendsFailEnv sampleState 0 [] none = (sampleState, 0) ∧
    dictGet sampleState.activeConnections 0 = some sampleConn := ⟨rfl, rfl⟩

/-- C3 (amended): for every call to submit_update, a Session whose send
fails is only logged and excluded from the delivered count — the failure
is not propagated to the caller, but no teardown is scheduled either:
the registry maps and the set of closed channels are untouched, and the
returned count is the number of resolved Sessions whose send succeeded. -/
theorem C3_update_failure_no_teardown (env : Env) (st : WSState) (now : Int)
    (payload : List (String × String)) (tds : Option (List String)) :
    (send_security_update env st now payload tds).fst.activeConnections =
      st.activeConnections ∧
    (send_security_update env st now payload tds).fst.deviceToConnection =
      st.deviceToConnection ∧
    (send_security_update env st now payload tds).fst.closedChannels = st.closedChannels ∧
    (send_security_update env st now payload tds).snd =
      successCount env (updateTargets st tds) := by
  rw [send_security_update_eq]
  exact ⟨rfl, rfl, rfl, rfl⟩

/-- C4 counterexample: with the external store failing, a register call
raises (the Redis setex at the end of connect is not wrapped in any
try/except), refuting the claim that store failures are swallowed and
register returns normally. -/
theorem C4_counterexample :
    (connect redisDownEnv initState 7 "d1" none 0).snd = Except.error () := rfl

/-- C4 (amended): a failure of the external-store call in register
(setex) or unregister (delete) propagates to the caller as a raised
error; the registry mutation, welcome send and channel close have already
completed before the store call, so the in-memory effect of the operation
is in place despite the raise. -/
theorem C4_store_failure_propagates (env : Env) (st : WSState) (ws : Nat) (d : String)
    (subs : Option (List String)) (now : Int) (cid : Nat) (conn : ConnectionInfo)
    (h1 : dictGet st.deviceToConnection d = none)
    (h2 : env.sendFails ws = false)
    (h3 : env.setexFails = true)
    (h4 : env.deleteFails = true)
    (h5 : dictGet st.activeConnections cid = some conn) :
    (connect env st ws d subs now).snd = Except.error () ∧
    lookup_by_device (connect env st ws d subs now).fst d =
      some (newConnection d ws subs now) ∧
    (disconnect env st cid).snd = Except.error () ∧
    dictGet (disconnect env st cid).fst.activeConnections cid = none ∧
    dictGet (disconnect env st cid).fst.deviceToConnection conn.deviceId = none := by
  have hcf := connect_fresh env st ws d subs now h1 h2
  have hde := disconnect_eq_of_get env st cid conn h5
  refine ⟨?_, ?_, ?_, ?_, ?_⟩
  · rw [hcf]
    simp [h3]
  · rw [hcf]
    simp [lookup_by_device, dictGet_set_self]
  · rw [hde]
    simp [h4]
  · rw [hde]
    exact dictGet_remove_self _ _
  · rw [hde]
    exact dictGet_remove_self _ _

theorem C4_store_failure_propagates_witness :
    (connect redisDownEnv sampleState 7 "d2" none 0).snd = Except.error () ∧
    lookup_by_device (connect redisDownEnv sampleState 7 "d2" none 0).fst "d2" =
      some (newConnection "d2" 7 none 0) ∧
    (disconnect redisDownEnv sampleState 0).snd = Except.error () ∧
    dictGet (disconnect redisDownEnv sampleState 0).fst.activeConnections 0 = none ∧
    dictGet (disconnect redisDownEnv sampleState 0).fst.deviceToConnection
      sampleConn.deviceId = none :=
  C4_store_failure_propagates redisDownEnv sampleState 7 "d2" none 0 0 sampleConn
    (by decide) rfl rfl rfl rfl

/-- C5 counterexample: a submit_alert whose target_devices lists the same
connected device twice delivers two copies of the alert envelope to that
single live Session of that device (channel 5 twice in the send log)
and returns a count of 2, exceeding the 1 distinct live Session resolved
— refuting exactly-once delivery under duplicated targets. -/
theorem C5_counterexample :
    (send_threat_alert okEnv sampleState 0 sampleAlert (some ["d1", "d1"])).snd = 2 ∧
    (send_threat_alert okEnv sampleState 0 sampleAlert (some ["d1", "d1"])).fst.sentLog.map
      Prod.fst = [5, 5] ∧
    sampleState.activeConnections.length = 1 := ⟨rfl, rfl, rfl⟩

/-- C5 (amended): without target_devices (the broadcast path), assuming
the live Sessions hold pairwise distinct channels, each live Session
receives at most one copy of the alert envelope (the channels of the
appended log entries are pairwise distinct) and the delivered count never
exceeds the number of live Sessions; with duplicated explicit targets the
source delivers one copy per occurrence, as the counterexample shows. -/
theorem C5_broadcast_at_most_once (env : Env) (st : WSState) (now : Int) (a : ThreatAlert)
    (h : (st.activeConnections.map (fun p => p.2.websocket)).Nodup) :
    (send_threat_alert env st now a none).fst.sentLog =
      st.sentLog ++ deliveredEntries env (threatAlertMessage now a) (alertTargets st a none) ∧
    ((deliveredEntries env (threatAlertMessage now a) (alertTargets st a none)).map
      Prod.fst).Nodup ∧
    (send_threat_alert env st now a none).snd ≤ st.activeConnections.length := by
  have htarg : alertTargets st a none =
      st.activeConnections.filter (fun p => should_receive_alert p.2 a) := rfl
  refine ⟨?_, ?_, ?_⟩
  · rw [send_threat_alert_eq, foldl_disconnect_sentLog]
    rfl
  · have hmap : (deliveredEntries env (threatAlertMessage now a)
        (alertTargets st a none)).map Prod.fst =
        ((alertTargets st a none).filter (fun p => !env.sendFails p.2.websocket)).map
          (fun p => p.2.websocket) := by
      simp [deliveredEntries, List.map_map]
    rw [hmap]
    have hsub : List.Sublist
        (((alertTargets st a none).filter
          (fun p => !env.sendFails p.2.websocket)).map (fun p => p.2.websocket))
        (st.activeConnections.map (fun p => p.2.websocket)) := by
      apply List.Sublist.map
      rw [htarg]
      exact (List.filter_sublist _).trans (List.filter_sublist _)
    exact h.sublist hsub
  · rw [send_threat_alert_eq]
    have hle1 : successCount env (alertTargets st a none) ≤ (alertTargets st a none).length :=
      List.length_filter_le _ _
    have hle2 : (alertTargets st a none).length ≤ st.activeConnections.length := by
      rw [htarg]
      exact List.length_filter_le _ _
    omega

theorem C5_broadcast_at_most_once_witness :
    (send_threat_alert okEnv sampleState 0 sampleAlert none).fst.sentLog =
      sampleState.sentLog ++
        deliveredEntries okEnv (threatAlertMessage 0 sampleAlert)
          (alertTargets sampleState sampleAlert none) ∧
    ((deliveredEntries okEnv (threatAlertMessage 0 sampleAlert)
        (alertTargets sampleState sampleAlert none)).map Prod.fst).Nodup ∧
    (send_threat_alert okEnv sampleState 0 sampleAlert none).snd ≤
      sampleState.activeConnections.length :=
  C5_broadcast_at_most_once okEnv sampleState 0 sampleAlert (by decide)

/-- C7: unregister idempotence.  Calling disconnect on an absent session
id is a no-op returning normally with the registry unchanged, in every
environment; an immediate second disconnect of the same id is a no-op
producing no error and no state change; and a channel-close error during
the first call is swallowed and does not prevent the removal of both
index entries. -/
theorem C7_unregister_idempotent (env : Env) (st : WSState) (cid1 cid2 : Nat)
    (conn : ConnectionInfo)
    (h1 : dictGet st.activeConnections cid1 = none)
    (h2 : dictGet st.activeConnections cid2 = some conn)
    (h3 : env.closeFails conn.websocket = true) :
    disconnect env st cid1 = (st, Except.ok ()) ∧
    disconnect env (disconnect env st cid2).fst cid2 =
      ((disconnect env st cid2).fst, Except.ok ()) ∧
    dictGet (disconnect env st cid2).fst.activeConnections cid2 = none ∧
    dictGet (disconnect env st cid2).fst.deviceToConnection conn.deviceId = none := by
  have hgone : dictGet (disconnect env st cid2).fst.activeConnections cid2 = none := by
    rw [disconnect_eq_of_get env st cid2 conn h2]
    exact dictGet_remove_self _ _
  refine ⟨disconnect_absent env st cid1 h1, disconnect_absent env _ cid2 hgone, hgone, ?_⟩
  rw [disconnect_eq_of_get env st cid2 conn h2]
  exact dictGet_remove_self _ _

theorem C7_unregister_idempotent_witness :
    disconnect closeFailEnv sampleState 99 = (sampleState, Except.ok ()) ∧
    disconnect closeFailEnv (disconnect closeFailEnv sampleState 0).fst 0 =
      ((disconnect closeFailEnv sampleState 0).fst, Except.ok ()) ∧
    dictGet (disconnect closeFailEnv sampleState 0).fst.activeConnections 0 = none ∧
    dictGet (disconnect closeFailEnv sampleState 0).fst.deviceToConnection
      sampleConn.deviceId = none :=
  C7_unregister_idempotent closeFailEnv sampleState 99 0 sampleConn rfl rfl rfl

/-- C6 (code bug evaluated): a register call with no initial
subscriptions stores a Session with the default subscription set, yet
the connection_established envelope it sends carries an empty
subscriptions list — connect line 160 reads the raw parameter
(None or []) instead of the stored effective set at line 143. -/
theorem C6_welcome_reports_empty_subscriptions :
    (connect okEnv initState 5 "d1" none 0).fst.sentLog.map (fun e => e.2.data) =
      [MsgData.connectionEstablished 0 []] ∧
    lookup_by_device (connect okEnv initState 5 "d1" none 0).fst "d1" =
      some (newConnection "d1" 5 none 0) ∧
    (newConnection "d1" 5 none 0).subscriptions = ["phishing", "malware", "scam"] :=
  ⟨rfl, rfl, rfl⟩

/-- C8 counterexample: a subscribe frame carrying risk_threshold 150 is
stored unvalidated — afterwards the risk_threshold of the Session is 150,
outside the claimed 0 to 100 range. -/
theorem C8_counterexample :
    ((handle_client_message okEnv sampleState 0 0
        (ClientMessage.subscribe [] (some 150))).fst.activeConnections.map
      (fun p => p.2.riskThreshold)) = [150] ∧
    ¬ ((150 : Int) ≤ 100) := ⟨rfl, by decide⟩

/-- C8 (amended): risk_threshold stays between 0 and 100 across every
operation sequence (register, client frames, unregister, alert and
update submission) provided every client-supplied risk_threshold in a
subscribe frame is itself between 0 and 100 — the code performs no
validation, so the invariant holds only conditionally on client input. -/
theorem C8_threshold_range_conditional (env : Env) (st : WSState) (ops : List Op)
    (h : ThresholdInv st) (hops : ∀ op ∈ ops, opThresholdOK op) :
    ThresholdInv (runOps env ops st) := by
  induction ops generalizing st with
  | nil => exact h
  | cons op rest ih =>
    exact ih _ (thresholdInv_step env st op h (hops op (List.mem_cons_self op rest)))
      (fun o ho => hops o (List.mem_cons_of_mem op ho))

theorem C8_threshold_range_witness :
    ThresholdInv (runOps okEnv [Op.frame 0 (ClientMessage.subscribe ["extra"] (some 60)) 1]
      sampleState) :=
  C8_threshold_range_conditional okEnv sampleState
    [Op.frame 0 (ClientMessage.subscribe ["extra"] (some 60)) 1]
    (by unfold ThresholdInv; decide)
    (by
      intro op hop
      rw [List.mem_singleton] at hop
      subst hop
      exact ⟨by decide, by decide⟩)

/-- C9: subscribe/unsubscribe round-trip.  For a registered Session not
subscribed to malware, a subscribe frame for malware with no threshold
field followed by an unsubscribe frame for malware leaves the stored
subscriptions exactly as before the pair, in every environment. -/
theorem C9_subscribe_unsubscribe_roundtrip (env : Env) (st : WSState) (t1 t2 : Int)
    (cid : Nat) (conn : ConnectionInfo)
    (h1 : dictGet st.activeConnections cid = some conn)
    (h2 : "malware" ∉ conn.subscriptions) :
    ∃ conn2,
      dictGet (handle_client_message env
          (handle_client_message env st t1 cid
            (ClientMessage.subscribe ["malware"] none)).fst
          t2 cid (ClientMessage.unsubscribe ["malware"])).fst.activeConnections cid =
        some conn2 ∧
      conn2.subscriptions = conn.subscriptions := by
  have hs1 := handle_subscribe_none_active env st t1 cid ["malware"] conn h1
  have hget1 : dictGet (handle_client_message env st t1 cid
      (ClientMessage.subscribe ["malware"] none)).fst.activeConnections cid =
      some { conn with
        lastPing := t1
        subscriptions := pyUpdate conn.subscriptions (pySet ["malware"]) } := by
    rw [hs1]
    exact dictGet_set_self _ _ _
  rw [handle_unsubscribe_eq env _ t2 cid ["malware"] _ hget1]
  refine ⟨_, dictGet_set_self _ _ _, ?_⟩
  show pyDiff (pyUpdate conn.subscriptions (pySet ["malware"])) (pySet ["malware"]) =
    conn.subscriptions
  rw [pySet_singleton, pyUpdate_singleton h2]
  exact pyDiff_append_singleton h2

theorem C9_subscribe_unsubscribe_roundtrip_witness :
    ∃ conn2,
      dictGet (handle_client_message okEnv
          (handle_client_message okEnv phishOnlyState 1 0
            (ClientMessage.subscribe ["malware"] none)).fst
          2 0 (ClientMessage.unsubscribe ["malware"])).fst.activeConnections 0 =
        some conn2 ∧
      conn2.subscriptions = phishOnlyConn.subscriptions :=
  C9_subscribe_unsubscribe_roundtrip okEnv phishOnlyState 1 2 0 phishOnlyConn rfl (by decide)

/-- C10: the uptime_seconds field of get_connection_stats is the clock
sample taken at the start of the call minus a second, later sample — so
for every registry state it is at most zero, and exactly zero under a
fixed clock; it never measures process uptime. -/
theorem C10_uptime_nonpositive (st : WSState) (now later : Int) (h : now ≤ later) :
    (get_connection_stats st now later).uptime_seconds ≤ 0 ∧
    (later = now → (get_connection_stats st now later).uptime_seconds = 0) := by
  constructor
  · show now - later ≤ 0
    omega
  · intro he
    show now - later = 0
    omega

theorem C10_uptime_nonpositive_witness :
    (get_connection_stats initState 3 5).uptime_seconds ≤ 0 ∧
    ((5 : Int) = 3 → (get_connection_stats initState 3 5).uptime_seconds = 0) :=
  C10_uptime_nonpositive initState 3 5 (by decide)
